import Mathlib

/-!
Verification development for the SecureCloudProject run orchestrator
(`backend/app/pipelines/runner_real.py`, `runner_fake.py`, `events.py`,
`routes.py`, `models.py`).

The Python code is shallowly embedded: pure helpers become Lean functions,
the orchestrator becomes a function from an environment (the outcomes of
all external processes, remote calls and database lookups) to the trace of
published events, appended log-file lines and committed database writes.
Machine strings are Lean strings; `datetime` values are abstracted as
natural numbers; Python exceptions are explicit `Option String` error
outcomes threaded through the control flow exactly as the `try`/`except`
blocks of the source dictate.
-/

namespace SecureCloud

/-- Status enum of a run, from `models.py` (`RunStatus`). -/
inductive RunStatus where
  | pending
  | running
  | success
  | failed
deriving DecidableEq, Repr

/-- The `Run` table row, from `models.py` lines 35-41.  Note the schema has
no completion-timestamp column: its fields are exactly `id`, `pipeline_id`,
`status`, `created_at`, `created_by`. -/
structure Run where
  id : Option Nat
  pipeline_id : Nat
  status : RunStatus
  created_at : Nat
  created_by : Nat
deriving DecidableEq, Repr

/-- The `Pipeline` table row, from `models.py` lines 18-27. -/
structure Pipeline where
  id : Option Nat
  name : String
  repo_url : String
  branch : String
  github_url : String
  status : String
  created_by : String
  created_at : Nat
  updated_at : Nat
deriving DecidableEq, Repr

/-- Events published on the run event bus, from the `dict` payloads built in
`runner_real.py` and `runner_fake.py` (`type` discriminator plus the
step-specific fields). -/
inductive Event where
  | run_start
  | step_start (step : String)
  | log (step : String) (message : String)
  | step_success (step : String)
  | run_success
  | run_failed (message : String)
deriving DecidableEq, Repr

/-! ### Slug derivation (`_sanitize_name`, runner_real.py lines 24-26)

`name.lower().replace(" ", "-").replace("_", "-")` acts character by
character on ASCII input, so it is embedded as a map over the string's
characters; `Char.toLower` models Python `str.lower` on the ASCII range. -/

/-- Per-character action of `_sanitize_name`: lowercase, then space and
underscore both become a hyphen. -/
def sanChar (c : Char) : Char :=
  let l := c.toLower
  if l = ' ' then '-' else if l = '_' then '-' else l

/-- `_sanitize_name` from runner_real.py lines 24-26. -/
def sanitize_name (name : String) : String :=
  String.mk (name.data.map sanChar)

/-- Characters codes 97-122 are valid, so `Char.ofNat` round-trips. -/
lemma toNat_ofNat_lower (n : Nat) (h1 : 97 ≤ n) (h2 : n ≤ 122) :
    (Char.ofNat n).toNat = n := by
  interval_cases n <;> decide

/-- ASCII lowercasing is idempotent. -/
lemma toLower_toLower (c : Char) : c.toLower.toLower = c.toLower := by
  unfold Char.toLower
  simp only [ge_iff_le]
  by_cases h : 65 ≤ c.toNat ∧ c.toNat ≤ 90
  · have hv : (Char.ofNat (c.toNat + 32)).toNat = c.toNat + 32 :=
      toNat_ofNat_lower _ (by omega) (by omega)
    have hcond : ¬ (65 ≤ (Char.ofNat (c.toNat + 32)).toNat ∧
        (Char.ofNat (c.toNat + 32)).toNat ≤ 90) := by
      rw [hv]; omega
    rw [if_pos h, if_neg hcond]
  · rw [if_neg h, if_neg h]

/-- The lowercase image of a character never is a space or an underscore
when the original already was not, and hyphen is a fixed point. -/
lemma sanChar_sanChar (c : Char) : sanChar (sanChar c) = sanChar c := by
  unfold sanChar
  by_cases h1 : c.toLower = ' '
  · simp [h1]
  · by_cases h2 : c.toLower = '_'
    · simp [h1, h2]
    · simp only [h1, h2, if_false]
      rw [toLower_toLower, if_neg h1, if_neg h2]

/-- Two characters that are equal up to letter case, or that are both in
the set consisting of hyphen and underscore. -/
def charEquiv (a b : Char) : Bool :=
  (a.toLower = b.toLower) || ((a = '-' || a = '_') && (b = '-' || b = '_'))

/-- Two character lists that differ only by underscore vs hyphen or by
letter case. -/
def nameEquivChars : List Char → List Char → Bool
  | [], [] => true
  | a :: as, b :: bs => charEquiv a b && nameEquivChars as bs
  | _, _ => false

/-- Two pipeline names that differ only by underscore vs hyphen or by
letter case. -/
def nameEquiv (s t : String) : Bool :=
  nameEquivChars s.data t.data

/-- Equivalent characters sanitize identically. -/
lemma sanChar_congr (a b : Char) (h : charEquiv a b = true) :
    sanChar a = sanChar b := by
  unfold charEquiv at h
  rw [Bool.or_eq_true] at h
  cases h with
  | inl h =>
    have hl : a.toLower = b.toLower := by
      simpa using h
    unfold sanChar
    rw [hl]
  | inr h =>
    rw [Bool.and_eq_true, Bool.or_eq_true, Bool.or_eq_true] at h
    obtain ⟨ha, hb⟩ := h
    have ha2 : a = '-' ∨ a = '_' := by
      cases ha with
      | inl h => exact Or.inl (by simpa using h)
      | inr h => exact Or.inr (by simpa using h)
    have hb2 : b = '-' ∨ b = '_' := by
      cases hb with
      | inl h => exact Or.inl (by simpa using h)
      | inr h => exact Or.inr (by simpa using h)
    cases ha2 <;> cases hb2 <;> subst_vars <;> decide

/-- Equivalent character lists sanitize identically. -/
lemma sanChars_congr : ∀ (xs ys : List Char), nameEquivChars xs ys = true →
    xs.map sanChar = ys.map sanChar
  | [], [], _ => rfl
  | a :: as, b :: bs, h => by
    unfold nameEquivChars at h
    rw [Bool.and_eq_true] at h
    simp only [List.map_cons]
    rw [sanChar_congr a b h.1, sanChars_congr as bs h.2]
  | [], _ :: _, h => by simp [nameEquivChars] at h
  | _ :: _, [], h => by simp [nameEquivChars] at h

/-! ### Health prober (`_healthcheck`, runner_real.py lines 177-199)

The network is abstracted as a function from the attempt number (starting
at 1, as in the Python `range(1, retries + 1)`) to the outcome of that
HTTP GET: either a status code, or an exception message (covering network
errors and the `HTTPError` urllib raises for error statuses). -/

/-- Outcome of one HTTP GET attempt. -/
inductive ProbeOutcome where
  | status (code : Nat)
  | exn (msg : String)
deriving DecidableEq, Repr

/-- Whether an attempt outcome is a 2xx response. -/
def is2xx (o : ProbeOutcome) : Bool :=
  match o with
  | .status s => 200 ≤ s && s < 300
  | .exn _ => false

/-- The `last_error` text the loop stores for a failed attempt. -/
def errorText (o : ProbeOutcome) : String :=
  match o with
  | .status s => "HTTP " ++ toString s
  | .exn m => m

/-- The failure result returned after exhaustion. -/
def failMessage (retries : Nat) (lastError : String) : String :=
  "Failed after " ++ toString retries ++ " attempts. Last error: " ++ lastError

/-- The success result returned on the first 2xx. -/
def successMessage (attempt retries s : Nat) : String :=
  "Success on attempt " ++ toString attempt ++ "/" ++ toString retries ++
    " (status " ++ toString s ++ ")"

/-- The retry loop of `_healthcheck`: the first argument counts the
remaining iterations of `for attempt in range(1, retries + 1)`, the second
is the current attempt number, the third the stored `last_error`. -/
def healthcheckAux (net : Nat → ProbeOutcome) (retries : Nat) :
    Nat → Nat → String → Bool × String
  | 0, _attempt, lastErr => (false, failMessage retries lastErr)
  | k + 1, attempt, _lastErr =>
    match net attempt with
    | .status s =>
      if 200 ≤ s ∧ s < 300 then (true, successMessage attempt retries s)
      else healthcheckAux net retries k (attempt + 1) ("HTTP " ++ toString s)
    | .exn m => healthcheckAux net retries k (attempt + 1) m

/-- `_healthcheck` from runner_real.py lines 177-199, with the retry count
explicit and the per-attempt network outcome supplied by `net`. -/
def healthcheck (net : Nat → ProbeOutcome) (retries : Nat) : Bool × String :=
  healthcheckAux net retries retries 1 ""

/-! ### Process runner (`_run_cmd`, runner_real.py lines 77-92)

The generator yields every merged stdout/stderr line, waits, and raises
`RuntimeError` on a non-zero exit code.  Embedded as the pair of the
yielded lines and the final outcome. -/

/-- `_run_cmd` from runner_real.py lines 77-92: the consumer sees all
output lines, then success for exit code 0 or the `RuntimeError` message
carrying the exit code and the space-joined command. -/
def runCommand (cmd : List String) (outputLines : List String) (exitCode : Nat) :
    List String × Except String Unit :=
  (outputLines,
    if exitCode = 0 then Except.ok ()
    else Except.error
      ("Command failed (" ++ toString exitCode ++ "): " ++ String.intercalate " " cmd))

/-! ### Event bus (`events.py` lines 4-14, consumed by `routes.py` `run_events`)

`RunEventBus` keeps one `asyncio.Queue` per run id; `publish` puts onto that
queue, and every SSE subscriber for the run obtains the *same* queue via
`bus.queue(run_id)` and loops on `q.get()`.  An interleaving of publishes
and subscriber gets for one run is embedded as a list of operations folded
over the queue contents; each completed `get` removes the head of the
queue and records which subscriber received it. -/

/-- One bus operation for a single run: a publish, or one subscriber
completing a `q.get()`. -/
inductive BusOp where
  | publish (e : Event)
  | take (sub : Nat)
deriving DecidableEq, Repr

/-- State of one run's channel: the pending queue, and the ordered list of
(subscriber, event) deliveries so far. -/
def busStep (st : List Event × List (Nat × Event)) (op : BusOp) :
    List Event × List (Nat × Event) :=
  match op with
  | .publish e => (st.1 ++ [e], st.2)
  | .take s =>
    match st.1 with
    | [] => st
    | e :: rest => (rest, st.2 ++ [(s, e)])

/-- Run an interleaving of operations against an initially empty channel. -/
def busRun (ops : List BusOp) : List Event × List (Nat × Event) :=
  ops.foldl busStep ([], [])

/-- The events published by an interleaving, in order. -/
def publishedEvents (ops : List BusOp) : List Event :=
  ops.filterMap fun op =>
    match op with
    | .publish e => some e
    | .take _ => none

/-- The events a given subscriber received, in order. -/
def deliveredTo (s : Nat) (ds : List (Nat × Event)) : List Event :=
  ds.filterMap fun p => if p.1 = s then some p.2 else none

/-- All deliveries in order, regardless of subscriber. -/
def deliveredAll (ds : List (Nat × Event)) : List Event :=
  ds.map Prod.snd

/-- Invariant of the shared queue: deliveries so far plus backlog equals
the initial queue plus everything published. -/
lemma busRun_invariant (ops : List BusOp) :
    ∀ (q : List Event) (ds : List (Nat × Event)),
      deliveredAll (ops.foldl busStep (q, ds)).2 ++ (ops.foldl busStep (q, ds)).1
        = deliveredAll ds ++ q ++ publishedEvents ops := by
  induction ops with
  | nil => intro q ds; simp [publishedEvents, deliveredAll]
  | cons op rest ih =>
    intro q ds
    cases op with
    | publish e =>
      simp only [List.foldl_cons, busStep]
      rw [ih]
      simp [publishedEvents, List.append_assoc]
    | take s =>
      simp only [List.foldl_cons, busStep]
      cases q with
      | nil =>
        rw [ih]
        simp [publishedEvents]
      | cons e restq =>
        rw [ih]
        simp [publishedEvents, deliveredAll, List.append_assoc]

/-! ### Fake runner (`runner_fake.py`) and the per-run event grammar -/

/-- The three events `run_fake` publishes for one step (its log payload
uses a `line` key in the source; only the step and text matter here). -/
def fakeStep (name : String) : List Event :=
  [Event.step_start name, Event.log name ("[" ++ name ++ "] ok\n"),
    Event.step_success name]

/-- The full event sequence `run_fake` publishes, from runner_fake.py. -/
def run_fake_events : List Event :=
  [Event.run_start] ++
    (["clone", "tests", "sonar", "docker_build", "docker_push", "deploy",
      "healthcheck"].map fakeStep).flatten ++
    [Event.run_success]

/-- Grammar acceptor after the leading `run_start`: `none` means outside a
step, `some s` means inside step `s` awaiting logs and its
`step_success`. -/
def grammarFrom : Option String → List Event → Bool
  | none, [] => false
  | none, Event.run_success :: rest => rest.isEmpty
  | none, Event.run_failed _ :: rest => rest.isEmpty
  | none, Event.step_start s :: rest => grammarFrom (some s) rest
  | none, _ => false
  | some s, Event.log _ _ :: rest => grammarFrom (some s) rest
  | some s, Event.step_success t :: rest => (t = s) && grammarFrom none rest
  | some _, _ => false

/-- Whether an event sequence matches the spec grammar
`run_start, (step_start, log*, step_success)*, (run_success | run_failed)`. -/
def matchesGrammar : List Event → Bool
  | Event.run_start :: rest => grammarFrom none rest
  | _ => false

/-! ### Cleanup-before-transfer (`cleanup_old_deploy` step, runner_real.py
lines 422-463)

The remote shell script is embedded by its effect on the remote Docker
state.  Its three phases, in order: stop and `rm -f` ALL running
containers (`docker ps -q`, no filter); `rm -f` remaining containers whose
name matches the pipeline container name (`--filter "name=..."` is an
unanchored substring match); `rmi -f` all images whose repository equals
the pipeline slug. -/

/-- A container on the deploy host. -/
structure RemoteContainer where
  name : String
  image : String
  running : Bool
deriving DecidableEq, Repr

/-- An image on the deploy host. -/
structure RemoteImage where
  repo : String
  tag : String
deriving DecidableEq, Repr

/-- Containers and images present on the deploy host. -/
structure RemoteDockerState where
  containers : List RemoteContainer
  images : List RemoteImage
deriving DecidableEq, Repr

/-- Unanchored substring match, as Docker's `name` filter performs. -/
def strContains (hay needle : String) : Bool :=
  decide (needle.data <:+: hay.data)

/-- Effect of the cleanup shell script on the remote Docker state.  In the
source `CONTAINER_NAME` and `APP_REPO` are both the pipeline slug, so one
parameter serves for both. -/
def cleanup_old_deploy (appRepo : String) (st : RemoteDockerState) :
    RemoteDockerState :=
  let afterRunning := st.containers.filter fun c => !c.running
  let afterName := afterRunning.filter fun c => !(strContains c.name appRepo)
  { containers := afterName,
    images := st.images.filter fun i => i.repo != appRepo }

/-! ### The real runner (`run_real_pipeline`, runner_real.py lines 269-617)

The orchestrator is embedded as a function from an environment — the
database lookup results and the outcomes of every external process, remote
call and HTTP probe — to the ordered list of published events, the
appended log-file lines and the committed database writes.  Output lines
of streamed commands are environment data (already stripped of their
trailing newline, as `_log` strips it).  A failing external command yields
its lines and then an exception message, exactly as `_run_cmd` does; the
message is environment data since its text comes from the external world.
The rollback helper catches its own exceptions; a failure inside it is
modelled at its checkout stage. -/

/-- Environment of one orchestrator invocation: database lookups, and the
outcome of every external interaction in program order. -/
structure Env where
  run : Option Run
  pipeline : Option Pipeline
  wsExists : Bool
  savedCommit : Option String
  startTs : String
  cloneErr : Option String
  demoExists : Bool
  mvnCompileLines : List String
  mvnCompileErr : Option String
  mvnTestLines : List String
  mvnTestErr : Option String
  sonarToken : Option String
  sonarLines : List String
  sonarExit : Nat
  dockerBuildLines : List String
  dockerBuildErr : Option String
  cleanupLines : List String
  cleanupErr : Option String
  shipLines : List String
  shipErr : Option String
  deployLines : List String
  deployErr : Option String
  healthOk : Bool
  healthMsg : String
  rollbackErr : Option String
  rollbackHeadLines : List String
  rbBuildLines : List String
  rbBuildErr : Option String
  rbShipLines : List String
  rbShipErr : Option String
  rbDeployLines : List String
  rbDeployErr : Option String
  rbHealthOk : Bool
  rbHealthMsg : String
deriving DecidableEq, Repr

/-- Events published to the bus paired with the lines appended to the
per-pipeline log file by the same helper calls. -/
structure EvLog where
  events : List Event
  lines : List String
deriving DecidableEq, Repr

/-- Concatenation of traces. -/
def EvLog.app (a b : EvLog) : EvLog :=
  ⟨a.events ++ b.events, a.lines ++ b.lines⟩

instance : Append EvLog := ⟨EvLog.app⟩

/-- `_step_start` with a pipeline name: event plus log-file line. -/
def evStepStart (s : String) : EvLog :=
  ⟨[Event.step_start s], ["\n>>> STEP: " ++ s]⟩

/-- `_step_ok` with a pipeline name: event plus log-file line. -/
def evStepOk (s : String) : EvLog :=
  ⟨[Event.step_success s], ["✓ STEP COMPLETED: " ++ s]⟩

/-- `_log` with a pipeline name: event plus log-file line. -/
def evLog (s m : String) : EvLog :=
  ⟨[Event.log s m], ["[" ++ s ++ "] " ++ m]⟩

/-- A streamed command's output forwarded line by line through `_log`. -/
def evLogs (s : String) (ms : List String) : EvLog :=
  ⟨ms.map (Event.log s), ms.map fun m => "[" ++ s ++ "] " ++ m⟩

/-- A bare `_emit`: publishes the event, writes no log-file line. -/
def evEmit (e : Event) : EvLog :=
  ⟨[e], []⟩

/-- How the `try` body of the orchestrator ends: fell through to the
success tail, executed the `return` of the failed-healthcheck branch with
these terminal statuses, or raised an exception with this message. -/
inductive BodyExit where
  | done
  | early (rs : RunStatus) (ps : String)
  | thrown (msg : String)
deriving DecidableEq, Repr

/-- Sequencing inside the `try` body: later work runs only if the earlier
part fell through. -/
def bodySeq (a b : EvLog × BodyExit) : EvLog × BodyExit :=
  match a.2 with
  | .done => (a.1 ++ b.1, b.2)
  | _ => a

/-- Terminal run status determined by how the body ended (success tail,
early return, or the `except` handler). -/
def exitRunStatus : BodyExit → RunStatus
  | .done => RunStatus.success
  | .early rs _ => rs
  | .thrown _ => RunStatus.failed

/-- Terminal pipeline status determined by how the body ended. -/
def exitPipelineStatus : BodyExit → String
  | .done => "success"
  | .early _ ps => ps
  | .thrown _ => "failed"

/-- The checkout step (runner_real.py lines 317-324). -/
def checkoutStep (e : Env) (p : Pipeline) (ws : String) : EvLog × BodyExit :=
  let base := evStepStart "checkout" ++ evLog "checkout" ("Workspace: " ++ ws) ++
    evLog "checkout" ("Cloning " ++ p.github_url ++ " (" ++ p.branch ++ ")")
  match e.cloneErr with
  | some m => (base, .thrown m)
  | none => (base ++ evStepOk "checkout", .done)

/-- The Maven build-and-test step (runner_real.py lines 326-346); skipped
as a success when the demo directory is missing. -/
def mavenStep (e : Env) : EvLog × BodyExit :=
  let s := "maven_tests"
  let base := evStepStart s
  if e.demoExists then
    let b2 := base ++ evLog s "Building with Maven (./mvnw -B clean compile)..." ++
      evLogs s e.mvnCompileLines
    match e.mvnCompileErr with
    | some m => (b2, .thrown m)
    | none =>
      let b3 := b2 ++ evLog s "Running tests (./mvnw -B test)..." ++
        evLogs s e.mvnTestLines
      match e.mvnTestErr with
      | some m => (b3, .thrown m)
      | none =>
        (b3 ++ evLog s "✅ Tests passed successfully!" ++ evStepOk s, .done)
  else
    (base ++ evLog s "No demo directory found, skipping tests" ++ evStepOk s, .done)

/-- The space-joined SonarCloud command logged before execution. -/
def sonarCmdText : String :=
  "./mvnw verify org.sonarsource.scanner.maven:sonar-maven-plugin:sonar " ++
    "-Dsonar.projectKey=vulzyun_bfbarchitecture"

/-- The SonarCloud step (runner_real.py lines 348-406); skipped when the
demo directory is missing; raises when the token is absent or the scanner
exits non-zero (the inner handler logs the error and re-raises). -/
def sonarStep (e : Env) : EvLog × BodyExit :=
  let s := "sonarcloud_analysis"
  let base := evStepStart s
  if e.demoExists then
    let b2 := base ++ evLog s "🔍 Running SonarCloud analysis..." ++
      evLog s "Results will be available on sonarcloud.io"
    match e.sonarToken with
    | none =>
      (b2 ++ evLog s "❌ ERROR: SONAR_TOKEN not found in .env file",
        .thrown "Missing SONAR_TOKEN - please add it to backend/.env")
    | some _ =>
      let b3 := b2 ++ evLog s ("Command: " ++ sonarCmdText) ++ evLogs s e.sonarLines
      if e.sonarExit = 0 then
        (b3 ++ evLog s "✅ SonarCloud analysis completed successfully!" ++
          evLog s "📊 View results: https://sonarcloud.io/project/overview?id=vulzyun_bfbarchitecture" ++
          evStepOk s, .done)
      else
        let m := "SonarCloud analysis failed (" ++ toString e.sonarExit ++ ")"
        (b3 ++ evLog s ("❌ SonarCloud analysis failed with exit code " ++
            toString e.sonarExit) ++
          evLog s ("❌ SonarCloud analysis error: " ++ m), .thrown m)
  else
    (base ++ evLog s "No demo directory found, skipping SonarCloud" ++ evStepOk s,
      .done)

/-- The Docker build step (runner_real.py lines 408-420). -/
def dockerBuildStep (e : Env) (imageTag buildContext : String) : EvLog × BodyExit :=
  let s := "docker_build"
  let base := evStepStart s ++ evLog s ("Building Docker image: " ++ imageTag) ++
    evLog s ("Build context: " ++ buildContext) ++ evLogs s e.dockerBuildLines
  match e.dockerBuildErr with
  | some m => (base, .thrown m)
  | none => (base ++ evLog s "✅ Docker image built successfully!" ++ evStepOk s, .done)

/-- The remote cleanup step (runner_real.py lines 422-463); its remote
effect is `cleanup_old_deploy`, here only its trace. -/
def cleanupStep (e : Env) (slug : String) : EvLog × BodyExit :=
  let s := "cleanup_old_deploy"
  let base := evStepStart s ++
    evLog s ("Stopping ALL containers and cleaning images for: " ++ slug) ++
    evLogs s e.cleanupLines
  match e.cleanupErr with
  | some m => (base, .thrown m)
  | none => (base ++ evStepOk s, .done)

/-- The image transfer step (runner_real.py lines 465-475). -/
def shipStep (e : Env) (imageTag : String) : EvLog × BodyExit :=
  let s := "ship_image_ssh"
  let base := evStepStart s ++
    evLog s "📦 Shipping Docker image to mohamed@188.166.77.14" ++
    evLog s "This may take several minutes depending on image size..." ++
    evLogs s e.shipLines
  match e.shipErr with
  | some m => (base, .thrown m)
  | none =>
    (base ++ evLog s ("✅ Image " ++ imageTag ++ " successfully transferred!") ++
      evStepOk s, .done)

/-- The remote deploy step (runner_real.py lines 477-494). -/
def deployStep (e : Env) (containerName : String) : EvLog × BodyExit :=
  let s := "deploy_run"
  let base := evStepStart s ++
    evLog s ("Starting new container: " ++ containerName) ++
    evLogs s e.deployLines
  match e.deployErr with
  | some m => (base, .thrown m)
  | none => (base ++ evStepOk s, .done)

/-- `_rollback_to_previous` (runner_real.py lines 221-262): all failures
inside it are caught and logged; on failure no `step_success` is
emitted. -/
def rollback_to_previous (containerName : String) (prev : Option String)
    (rbErr : Option String) (headLines : List String) : EvLog :=
  let s := "rollback"
  evStepStart s ++
    match prev with
    | none =>
      evLog s "No previous commit available, cannot rollback" ++ evStepOk s
    | some c =>
      evLog s ("Stopping failed container: " ++ containerName) ++
        evLog s ("Checking out previous commit: " ++ c) ++
        match rbErr with
        | none =>
          evLogs s headLines ++ evLog s "✅ Rollback checkout completed." ++
            evStepOk s
        | some m => evLog s ("⚠️ Rollback checkout failed: " ++ m)

/-- The healthcheck step and, on failure, the inline rollback-and-redeploy
branch ending in the early `return` (runner_real.py lines 496-584). -/
def healthPhase (e : Env) (slug imageTag hcUrl : String) (prev : Option String) :
    EvLog × BodyExit :=
  let s := "healthcheck"
  let base := evStepStart s ++ evLog s ("GET " ++ hcUrl) ++
    evLog s "Waiting for container to be ready (timeout: 10s, retries: 30, delay: 2s)..."
  if e.healthOk then
    (base ++ evLog s ("✅ Healthcheck OK! " ++ e.healthMsg) ++ evStepOk s, .done)
  else
    let b2 := base ++ evLog s ("❌ Healthcheck FAILED: " ++ e.healthMsg) ++
      evLog s "Triggering rollback..." ++ evStepOk s
    match prev with
    | some c =>
      let b3 := b2 ++ rollback_to_previous slug (some c) e.rollbackErr e.rollbackHeadLines ++
        evLog "rollback" "Now rebuilding and redeploying..."
      let b4 := b3 ++ evStepStart "docker_build" ++
        evLog "docker_build" ("Building Docker image: " ++ imageTag) ++
        evLogs "docker_build" e.rbBuildLines
      match e.rbBuildErr with
      | some m => (b4, .thrown m)
      | none =>
        let b5 := b4 ++ evStepOk "docker_build" ++ evStepStart "ship_image_ssh" ++
          evLogs "ship_image_ssh" e.rbShipLines
        match e.rbShipErr with
        | some m => (b5, .thrown m)
        | none =>
          let b6 := b5 ++ evStepOk "ship_image_ssh" ++ evStepStart "deploy_run" ++
            evLog "deploy_run" ("Starting container: " ++ slug) ++
            evLogs "deploy_run" e.rbDeployLines
          match e.rbDeployErr with
          | some m => (b6, .thrown m)
          | none =>
            let hs := "healthcheck_rollback"
            let b7 := b6 ++ evStepOk "deploy_run" ++ evStepStart hs ++
              evLog hs ("GET " ++ hcUrl) ++
              evLog hs "Checking if rolled-back version is healthy..."
            if e.rbHealthOk then
              (b7 ++ evLog hs ("✅ Rollback healthcheck OK! " ++ e.rbHealthMsg) ++
                evStepOk hs ++ evEmit Event.run_success ++
                evLog "success" "🎉 Rollback successful - Previous version is healthy!",
                .early RunStatus.success "success")
            else
              (b7 ++ evLog hs ("❌ Rollback healthcheck FAILED: " ++ e.rbHealthMsg) ++
                evStepOk hs ++
                evEmit (Event.run_failed "Rollback deployed but healthcheck failed") ++
                evLog "error" "❌ Rollback deployed but previous version failed healthcheck",
                .early RunStatus.failed "failed")
    | none =>
      (b2 ++ evEmit (Event.run_failed "Healthcheck failed - no previous version to rollback to") ++
        evLog "error" "❌ Healthcheck failed and no previous version available",
        .early RunStatus.failed "failed")

/-- The previous commit recorded before checkout (runner_real.py lines
307-312): only consulted when the workspace already exists. -/
def prevCommit (e : Env) : Option String :=
  if e.wsExists then e.savedCommit else none

/-- The whole `try` body of the orchestrator, in program order. -/
def runBody (e : Env) (p : Pipeline) (runId : Nat) : EvLog × BodyExit :=
  let slug := sanitize_name p.name
  let imageTag := slug ++ ":run-" ++ toString runId
  let ws := "~/.cicd/workspaces/" ++ slug
  let buildContext := if e.demoExists then ws ++ "/demo" else ws
  let hcUrl := "http://188.166.77.14:8080/swagger-ui/index.html"
  let r0 : EvLog × BodyExit := (evEmit Event.run_start, BodyExit.done)
  let r1 := bodySeq r0 (checkoutStep e p ws)
  let r2 := bodySeq r1 (mavenStep e)
  let r3 := bodySeq r2 (sonarStep e)
  let r4 := bodySeq r3 (dockerBuildStep e imageTag buildContext)
  let r5 := bodySeq r4 (cleanupStep e slug)
  let r6 := bodySeq r5 (shipStep e imageTag)
  let r7 := bodySeq r6 (deployStep e slug)
  let r8 := bodySeq r7 (healthPhase e slug imageTag hcUrl (prevCommit e))
  bodySeq r8
    (evEmit Event.run_success ++ evLog "success" "🎉 Pipeline completed successfully!",
      BodyExit.done)

/-- Result of one orchestrator invocation: published events, appended
log-file lines, the run-status value of each commit touching the run row,
the run and pipeline rows as last committed, and whether the non-column
`finished_at` attribute was assigned in memory. -/
structure RunOutcome where
  events : List Event
  logLines : List String
  runWrites : List RunStatus
  finalRun : Option Run
  finalPipelineStatus : Option String
  finishedAtAttr : Bool
deriving DecidableEq, Repr

/-- `run_real_pipeline` (runner_real.py lines 269-617).  Returns the full
observable trace of the invocation.  `finalRun` is the `Run` row as the
database holds it afterwards — exactly the schema fields of models.py. -/
def run_real_pipeline (runId : Nat) (e : Env) : RunOutcome :=
  match e.run with
  | none => ⟨[], [], [], none, none, false⟩
  | some r =>
    match e.pipeline with
    | none => ⟨[], [], [], some r, none, false⟩
    | some p =>
      let prev := prevCommit e
      let initEv : List Event :=
        match prev with
        | some c => [Event.log "init" ("📌 Saved previous commit: " ++ c)]
        | none => []
      let header := "=== Pipeline: " ++ p.name ++ " | Run " ++ toString runId ++
        " | " ++ e.startTs ++ " ==="
      let body := runBody e p runId
      let tail : EvLog :=
        match body.2 with
        | .thrown m =>
          evEmit (Event.run_failed m) ++ evLog "error" ("❌ Pipeline FAILED: " ++ m) ++
            (match prev with
             | some c =>
               evLog "error" "⚠️ Attempting rollback to previous commit..." ++
                 rollback_to_previous (sanitize_name p.name) (some c) e.rollbackErr
                   e.rollbackHeadLines
             | none => evLog "error" "⚠️ No previous commit available for rollback")
        | _ => ⟨[], []⟩
      { events := initEv ++ body.1.events ++ tail.events,
        logLines := [header] ++ body.1.lines ++ tail.lines,
        runWrites := [RunStatus.running, exitRunStatus body.2],
        finalRun := some { r with status := exitRunStatus body.2 },
        finalPipelineStatus := some (exitPipelineStatus body.2),
        finishedAtAttr := true }

/-- The trigger path (`routes.py` `run_pipeline`, lines 165-189): the run
row is created with status `running` before the orchestrator background
task is invoked. -/
def create_run (pipeline_id createdBy ts : Nat) : Run :=
  { id := none, pipeline_id := pipeline_id, status := RunStatus.running,
    created_at := ts, created_by := createdBy }

/-! ### Derived predicates used by the claims -/

/-- Whether the body reaches the healthcheck step: no earlier step raises. -/
def reachesHealth (e : Env) : Bool :=
  e.cloneErr.isNone &&
    (if e.demoExists then
      e.mvnCompileErr.isNone && e.mvnTestErr.isNone && e.sonarToken.isSome &&
        (e.sonarExit == 0)
    else true) &&
    e.dockerBuildErr.isNone && e.cleanupErr.isNone && e.shipErr.isNone &&
    e.deployErr.isNone

/-- Whether the rollback rebuild-and-redeploy commands all succeed. -/
def rbRedeployOk (e : Env) : Bool :=
  e.rbBuildErr.isNone && e.rbShipErr.isNone && e.rbDeployErr.isNone

/-- Fold step identifying the currently open step: a `step_start` opens its
step, the matching `step_success` closes it, other events do not touch
it. -/
def openAcc (acc : Option String) (ev : Event) : Option String :=
  match ev with
  | .step_start s => some s
  | .step_success s => if acc = some s then none else acc
  | _ => acc

/-- The last `step_start` without a matching `step_success`, for the
well-bracketed streams the runner emits. -/
def lastOpenStep (evs : List Event) : Option String :=
  evs.foldl openAcc none

/-- The step in which the body raises, mirroring the cascade of fallible
operations in program order; `none` when no step before the healthcheck
raises. -/
def failingStep (e : Env) : Option String :=
  if e.cloneErr.isSome then some "checkout"
  else if e.demoExists && (e.mvnCompileErr.isSome || e.mvnTestErr.isSome) then
    some "maven_tests"
  else if e.demoExists && (e.sonarToken.isNone || !(e.sonarExit == 0)) then
    some "sonarcloud_analysis"
  else if e.dockerBuildErr.isSome then some "docker_build"
  else if e.cleanupErr.isSome then some "cleanup_old_deploy"
  else if e.shipErr.isSome then some "ship_image_ssh"
  else if e.deployErr.isSome then some "deploy_run"
  else none

/-! ### Trace helper lemmas -/

@[simp] lemma EvLog.events_app (a b : EvLog) : (a ++ b).events = a.events ++ b.events := rfl

@[simp] lemma EvLog.lines_app (a b : EvLog) : (a ++ b).lines = a.lines ++ b.lines := rfl

@[simp] lemma evStepStart_events (s : String) :
    (evStepStart s).events = [Event.step_start s] := rfl

@[simp] lemma evStepOk_events (s : String) :
    (evStepOk s).events = [Event.step_success s] := rfl

@[simp] lemma evLog_events (s m : String) : (evLog s m).events = [Event.log s m] := rfl

@[simp] lemma evLogs_events (s : String) (ms : List String) :
    (evLogs s ms).events = ms.map (Event.log s) := rfl

@[simp] lemma evEmit_events (ev : Event) : (evEmit ev).events = [ev] := rfl

/-- Streamed command output does not affect the open-step fold. -/
lemma foldl_openAcc_logs (s : String) (ms : List String) (acc : Option String) :
    (ms.map (Event.log s)).foldl openAcc acc = acc := by
  induction ms generalizing acc with
  | nil => rfl
  | cons m rest ih => simpa [openAcc] using ih acc

/-- Sequencing after a completed part. -/
lemma bodySeq_snd_done (a b : EvLog × BodyExit) (h : a.2 = BodyExit.done) :
    (bodySeq a b).2 = b.2 := by
  simp [bodySeq, h]

/-- Sequencing after an abandoned part. -/
lemma bodySeq_of_ne_done (a b : EvLog × BodyExit) (h : a.2 ≠ BodyExit.done) :
    bodySeq a b = a := by
  cases ha : a.2 with
  | done => exact absurd ha h
  | early rs ps => simp [bodySeq, ha]
  | thrown m => simp [bodySeq, ha]

/-! ### Shared concrete fixtures -/

/-- A pipeline row as created by the trigger route. -/
def p0 : Pipeline :=
  { id := some 1, name := "My App", repo_url := "u", branch := "main",
    github_url := "u", status := "pending", created_by := "admin",
    created_at := 0, updated_at := 0 }

/-- A run row in running state, as the trigger route creates it. -/
def r0 : Run :=
  { id := some 1, pipeline_id := 1, status := RunStatus.running,
    created_at := 0, created_by := 1 }

/-- Environment in which every external interaction succeeds and no
previous workspace exists. -/
def envAllOk : Env :=
  { run := some r0, pipeline := some p0, wsExists := false, savedCommit := none,
    startTs := "T", cloneErr := none, demoExists := false,
    mvnCompileLines := [], mvnCompileErr := none, mvnTestLines := [],
    mvnTestErr := none, sonarToken := some "tok", sonarLines := [],
    sonarExit := 0, dockerBuildLines := [], dockerBuildErr := none,
    cleanupLines := [], cleanupErr := none, shipLines := [], shipErr := none,
    deployLines := [], deployErr := none, healthOk := true, healthMsg := "OK",
    rollbackErr := none, rollbackHeadLines := [], rbBuildLines := [],
    rbBuildErr := none, rbShipLines := [], rbShipErr := none,
    rbDeployLines := [], rbDeployErr := none, rbHealthOk := true,
    rbHealthMsg := "ok" }

/-! ### C7 — health prober -/

/-- Exhaustion: when no attempt in the remaining window is a 2xx, the loop
returns failure quoting the retry count and the last error observed. -/
lemma healthcheckAux_fail (net : Nat → ProbeOutcome) (retries : Nat) :
    ∀ (k a : Nat) (le : String), 1 ≤ k → k + a = retries + 1 →
      (∀ i, a ≤ i → i ≤ retries → is2xx (net i) = false) →
      healthcheckAux net retries k a le =
        (false, failMessage retries (errorText (net retries))) := by
  intro k
  induction k with
  | zero => intro a le hk; omega
  | succ k ih =>
    intro a le _hk hsum hf
    have ha : a ≤ retries := by omega
    have hfa := hf a (Nat.le_refl a) ha
    rcases hnet : net a with s | m
    · have h2 : ¬ (200 ≤ s ∧ s < 300) := by
        rw [hnet] at hfa
        simp only [is2xx, Bool.and_eq_false_iff, decide_eq_false_iff_not] at hfa
        omega
      simp only [healthcheckAux, hnet]
      rw [if_neg h2]
      rcases Nat.eq_zero_or_pos k with hk0 | hk1
      · subst hk0
        have haeq : a = retries := by omega
        subst haeq
        simp only [healthcheckAux]
        simp [errorText, hnet]
      · exact ih (a + 1) _ hk1 (by omega) (fun i h1 h2 => hf i (by omega) h2)
    · simp only [healthcheckAux, hnet]
      rcases Nat.eq_zero_or_pos k with hk0 | hk1
      · subst hk0
        have haeq : a = retries := by omega
        subst haeq
        simp only [healthcheckAux]
        simp [errorText, hnet]
      · exact ih (a + 1) _ hk1 (by omega) (fun i h1 h2 => hf i (by omega) h2)

/-- First success: the loop returns on the first 2xx attempt with the
success message quoting that attempt number and status. -/
lemma healthcheckAux_success (net : Nat → ProbeOutcome) (retries t s : Nat)
    (hnet : net t = ProbeOutcome.status s) (h2a : 200 ≤ s) (h2b : s < 300) :
    ∀ (k a : Nat) (le : String), k + a = retries + 1 → a ≤ t → t ≤ retries →
      (∀ i, a ≤ i → i < t → is2xx (net i) = false) →
      healthcheckAux net retries k a le = (true, successMessage t retries s) := by
  intro k
  induction k with
  | zero => intro a le hsum hat htr _; omega
  | succ k ih =>
    intro a le hsum hat htr hf
    rcases Nat.eq_or_lt_of_le hat with haeq | halt
    · subst haeq
      simp only [healthcheckAux, hnet]
      rw [if_pos ⟨h2a, h2b⟩]
    · have hfa := hf a (Nat.le_refl a) halt
      rcases hneta : net a with s2 | m
      · have h2 : ¬ (200 ≤ s2 ∧ s2 < 300) := by
          rw [hneta] at hfa
          simp only [is2xx, Bool.and_eq_false_iff, decide_eq_false_iff_not] at hfa
          omega
        simp only [healthcheckAux, hneta]
        rw [if_neg h2]
        exact ih (a + 1) _ (by omega) (by omega) htr
          (fun i h1 h2 => hf i (by omega) h2)
      · simp only [healthcheckAux, hneta]
        exact ih (a + 1) _ (by omega) (by omega) htr
          (fun i h1 h2 => hf i (by omega) h2)

/-- C7: the health prober succeeds on the first 2xx response with a message
naming that attempt; it treats every network error or non-2xx status as a
retryable failure; being a total function it never raises; and after
exhausting all `retries` attempts without a 2xx it returns `false` with
the message `Failed after {retries} attempts. Last error: ...` quoting the
last observed failure reason. -/
theorem C7_health_prober :
    (∀ (net : Nat → ProbeOutcome) (retries : Nat), 1 ≤ retries →
      (∀ i, 1 ≤ i → i ≤ retries → is2xx (net i) = false) →
      healthcheck net retries =
        (false, failMessage retries (errorText (net retries)))) ∧
    (∀ (net : Nat → ProbeOutcome) (retries t s : Nat), 1 ≤ t → t ≤ retries →
      net t = ProbeOutcome.status s → 200 ≤ s → s < 300 →
      (∀ i, 1 ≤ i → i < t → is2xx (net i) = false) →
      healthcheck net retries = (true, successMessage t retries s)) := by
  constructor
  · intro net retries h1 hf
    exact healthcheckAux_fail net retries retries 1 "" h1 (by omega) hf
  · intro net retries t s h1 h2 hnet h2a h2b hf
    exact healthcheckAux_success net retries t s hnet h2a h2b retries 1 ""
      (by omega) h1 h2 hf

/-- Witness: the spec scenario `maxAttempts=3` against an endpoint that
never returns 2xx, and a probe that succeeds on its second attempt. -/
theorem C7_health_prober_witness :
    healthcheck (fun _ => ProbeOutcome.status 500) 3 =
      (false, "Failed after 3 attempts. Last error: HTTP 500") ∧
    healthcheck (fun i => if i = 2 then ProbeOutcome.status 200
      else ProbeOutcome.exn "conn refused") 3 =
      (true, "Success on attempt 2/3 (status 200)") := by
  constructor
  · have h := C7_health_prober.1 (fun _ => ProbeOutcome.status 500) 3 (by omega)
      (fun i _ _ => rfl)
    rw [h]; decide
  · have h := C7_health_prober.2
      (fun i => if i = 2 then ProbeOutcome.status 200 else ProbeOutcome.exn "conn refused")
      3 2 200 (by omega) (by omega) rfl (by omega) (by omega)
      (fun i h1 h2 => by interval_cases i; rfl)
    rw [h]; decide

/-! ### C8 — process runner -/

/-- C8: the process runner yields all output lines to the consumer and
then reports failure carrying the exit code and the invoked command for a
non-zero exit, or success for a zero exit. -/
theorem C8_process_runner :
    ∀ (cmd outputLines : List String) (exitCode : Nat),
      (runCommand cmd outputLines exitCode).1 = outputLines ∧
      (exitCode ≠ 0 → (runCommand cmd outputLines exitCode).2 =
        Except.error ("Command failed (" ++ toString exitCode ++ "): " ++
          String.intercalate " " cmd)) ∧
      (exitCode = 0 → (runCommand cmd outputLines exitCode).2 = Except.ok ()) := by
  intro cmd outputLines exitCode
  refine ⟨rfl, fun h => ?_, fun h => ?_⟩ <;> simp [runCommand, h]

/-- Witness: the spec scenario of exit code 2 — all lines observed, then a
failure naming exit code 2 and the argument vector. -/
theorem C8_process_runner_witness :
    (runCommand ["false", "arg"] ["line1", "line2"] 2).1 = ["line1", "line2"] ∧
    (runCommand ["false", "arg"] ["line1", "line2"] 2).2 =
      Except.error "Command failed (2): false arg" := by
  constructor
  · exact (C8_process_runner ["false", "arg"] ["line1", "line2"] 2).1
  · have h := (C8_process_runner ["false", "arg"] ["line1", "line2"] 2).2.1
      (by omega)
    rw [h]
    exact congrArg Except.error (by decide)

/-! ### C9 — slug derivation -/

/-- C9: slug derivation is idempotent, and two names that differ only by
underscore vs hyphen or by letter case map to the same slug. -/
theorem C9_sanitize_slug :
    (∀ s : String, sanitize_name (sanitize_name s) = sanitize_name s) ∧
    (∀ s t : String, nameEquiv s t = true → sanitize_name s = sanitize_name t) := by
  constructor
  · intro s
    unfold sanitize_name
    refine congrArg String.mk ?_
    show ((s.data.map sanChar).map sanChar) = s.data.map sanChar
    rw [List.map_map]
    exact List.map_congr_left fun a _ => sanChar_sanChar a
  · intro s t h
    unfold nameEquiv at h
    exact congrArg String.mk (sanChars_congr _ _ h)

/-- Witness: double sanitization of a mixed name, and the collision of a
case/underscore variant pair. -/
theorem C9_sanitize_slug_witness :
    sanitize_name (sanitize_name "My App_X") = sanitize_name "My App_X" ∧
    sanitize_name "My_App" = sanitize_name "my-app" := by
  constructor
  · exact C9_sanitize_slug.1 "My App_X"
  · exact C9_sanitize_slug.2 "My_App" "my-app" (by decide)

/-! ### C10 — missing database rows -/

/-- C10: for a run id with no run row, or a run row referencing a missing
pipeline row, the orchestrator is a complete no-op: no event, no log-file
line, no database write, and the run row (when present) is untouched. -/
theorem C10_missing_rows (runId : Nat) (e : Env) :
    (e.run = none → run_real_pipeline runId e = ⟨[], [], [], none, none, false⟩) ∧
    (∀ r, e.run = some r → e.pipeline = none →
      run_real_pipeline runId e = ⟨[], [], [], some r, none, false⟩) := by
  constructor
  · intro h
    simp [run_real_pipeline, h]
  · intro r hr hp
    simp [run_real_pipeline, hr, hp]

/-- Witness: both no-op cases evaluated on concrete environments. -/
theorem C10_missing_rows_witness :
    run_real_pipeline 1 { envAllOk with run := none } = ⟨[], [], [], none, none, false⟩ ∧
    run_real_pipeline 1 { envAllOk with pipeline := none } =
      ⟨[], [], [], some r0, none, false⟩ := by
  constructor
  · exact (C10_missing_rows 1 { envAllOk with run := none }).1 rfl
  · exact (C10_missing_rows 1 { envAllOk with pipeline := none }).2 r0 rfl rfl

/-! ### C4 — terminal status persistence

The claim fails on the code: the runner assigns `run.finished_at` at run
end (runner_real.py lines 578, 593, 615), but `models.py` declares no
`finished_at` column on `Run`, so the assignment is an unmapped in-memory
attribute and no completion timestamp is persisted with the terminal
status.  The row itself — embedded with exactly the schema fields — is
created `running` by the trigger path and receives its terminal status in
exactly one commit. -/

/-- C4: evaluation at a fully successful run.  The trigger path creates
the row in `running` state; the orchestrator commits the run status twice
(`running`, then the terminal status exactly once); the persisted row
afterwards differs from the created one only in `status` — the `Run`
schema carries no completion timestamp, the runner only set the non-column
`finished_at` attribute. -/
theorem C4_terminal_write :
    (create_run 1 1 0).status = RunStatus.running ∧
    (run_real_pipeline 1 envAllOk).runWrites = [RunStatus.running, RunStatus.success] ∧
    (run_real_pipeline 1 envAllOk).finalRun =
      some { id := some 1, pipeline_id := 1, status := RunStatus.success,
             created_at := 0, created_by := 1 } ∧
    (run_real_pipeline 1 envAllOk).finishedAtAttr = true := by
  refine ⟨rfl, ?_, ?_, ?_⟩ <;> decide

/-! ### C5 — cleanup-before-transfer frame property

The claim fails on the code: the first phase of the cleanup script stops
and removes ALL running containers on the host (`docker ps -q` with no
filter), not only those of the pipeline being deployed. -/

/-- A running container belonging to a different pipeline. -/
def otherContainer : RemoteContainer :=
  { name := "other-app", image := "other:1", running := true }

/-- A host state also serving one other pipeline. -/
def hostState : RemoteDockerState :=
  { containers := [otherContainer], images := [{ repo := "other", tag := "1" }] }

/-- C5 counterexample: a running container of another pipeline — its name
does not even contain this pipeline's slug — is removed by the cleanup
step, refuting the claim that other pipelines' containers are left
unchanged. -/
theorem C5_counterexample :
    otherContainer ∈ hostState.containers ∧
    otherContainer.running = true ∧
    strContains otherContainer.name "my-app" = false ∧
    otherContainer ∉ (cleanup_old_deploy "my-app" hostState).containers := by
  refine ⟨by decide, rfl, by decide, by decide⟩

/-- C5 amended: the cleanup step removes every running container on the
host regardless of owner; among stopped containers it removes only those
whose name contains this pipeline's slug, and it deletes only images of
the same repository name — stopped containers and images of other
pipelines survive. -/
theorem C5_cleanup_frame (repo : String) (st : RemoteDockerState) :
    (∀ c, c ∈ st.containers → c.running = false → strContains c.name repo = false →
      c ∈ (cleanup_old_deploy repo st).containers) ∧
    (∀ i, i ∈ st.images → i.repo ≠ repo → i ∈ (cleanup_old_deploy repo st).images) ∧
    (∀ c, c ∈ (cleanup_old_deploy repo st).containers → c.running = false) := by
  refine ⟨?_, ?_, ?_⟩
  · intro c hc hrun hname
    simp only [cleanup_old_deploy, List.mem_filter]
    exact ⟨⟨hc, by simp [hrun]⟩, by simp [hname]⟩
  · intro i hi hrepo
    simp only [cleanup_old_deploy, List.mem_filter]
    exact ⟨hi, by simpa [bne_iff_ne] using hrepo⟩
  · intro c hc
    simp only [cleanup_old_deploy, List.mem_filter] at hc
    simpa using hc.1.2

/-- Witness: on the sample host state, the stopped container and foreign
image survive cleanup and nothing left is running. -/
theorem C5_cleanup_frame_witness :
    let stopped : RemoteContainer := { name := "third", image := "third:1", running := false }
    let st : RemoteDockerState :=
      { containers := [stopped], images := [{ repo := "other", tag := "1" }] }
    stopped ∈ (cleanup_old_deploy "my-app" st).containers ∧
    ({ repo := "other", tag := "1" } : RemoteImage) ∈ (cleanup_old_deploy "my-app" st).images ∧
    ∀ c, c ∈ (cleanup_old_deploy "my-app" st).containers → c.running = false := by
  intro stopped st
  refine ⟨?_, ?_, ?_⟩
  · exact (C5_cleanup_frame "my-app" st).1 stopped (by decide) rfl (by decide)
  · exact (C5_cleanup_frame "my-app" st).2.1 _ (by decide) (by decide)
  · exact (C5_cleanup_frame "my-app" st).2.2

/-! ### C2 — event bus delivery

The claim fails on the code: all subscribers of a run share the single
`asyncio.Queue` of that run, so a `get` by one subscriber removes the
event for all others — events are distributed, not broadcast. -/

/-- An interleaving with two events published while two subscribers are
attached, each subscriber then completing one `get`. -/
def twoSubsOps : List BusOp :=
  [BusOp.publish Event.run_start, BusOp.publish Event.run_success,
    BusOp.take 0, BusOp.take 1]

/-- C2 counterexample: both subscribers drain the channel until it is
empty, yet subscriber 0 never receives `run_success` although it was
published while subscriber 0 was attached — delivery is not at-least-once
to every subscriber. -/
theorem C2_counterexample :
    Event.run_success ∈ publishedEvents twoSubsOps ∧
    (busRun twoSubsOps).1 = [] ∧
    deliveredTo 0 (busRun twoSubsOps).2 = [Event.run_start] ∧
    deliveredTo 1 (busRun twoSubsOps).2 = [Event.run_success] := by
  refine ⟨by decide, by decide, by decide, by decide⟩

/-- C2 amended: subscribers share one queue per run, so each published
event is delivered to at most one subscriber; in every interleaving the
deliveries, in order, followed by the remaining backlog are exactly the
publish sequence — hence a single subscriber draining the queue receives
every event in publish order, while concurrent subscribers partition the
events among themselves. -/
theorem C2_bus_delivery (ops : List BusOp) :
    deliveredAll (busRun ops).2 ++ (busRun ops).1 = publishedEvents ops := by
  have h := busRun_invariant ops [] []
  simpa [deliveredAll] using h

/-! ### C3 — event grammar

The claim fails on the real runner: when a previous commit is recorded,
the `init` log event is emitted before `run_start` (runner_real.py line
312 precedes line 315), and every completed real run also emits a final
log event after its terminal event.  The fake runner satisfies the
grammar exactly. -/

/-- Environment whose workspace already records a previous commit. -/
def envPrev : Env :=
  { envAllOk with wsExists := true, savedCommit := some "abc123" }

/-- C3 counterexample: with a recorded previous commit the first published
event of the real runner is a log event, not `run_start`, and the full
sequence does not match the grammar. -/
theorem C3_counterexample :
    (run_real_pipeline 1 envPrev).events.head? =
      some (Event.log "init" "📌 Saved previous commit: abc123") ∧
    matchesGrammar (run_real_pipeline 1 envPrev).events = false := by
  refine ⟨by decide, by decide⟩

/-- C3 amended: the fake runner's published sequence matches the grammar
`run_start, (step_start, log*, step_success)*, (run_success | run_failed)`
exactly; the real runner's sequence deviates from it (an `init` log may
precede `run_start`, and diagnostic or rollback events follow the terminal
event). -/
theorem C3_fake_grammar : matchesGrammar run_fake_events = true := by decide

/-! ### C1 — run status after rollback

The claim fails on the code: in the failed-healthcheck branch the runner
rebuilds and redeploys the previous commit, re-probes, and on a passing
rollback healthcheck persists the run (and pipeline) as SUCCESS
(runner_real.py lines 556-563) — the rollback outcome does gate the run's
terminal status. -/

/-- Environment of a run whose deploy healthcheck fails with a recorded
previous commit and a fully successful rollback redeploy. -/
def envRollbackOk : Env :=
  { envAllOk with
    wsExists := true, savedCommit := some "abc123",
    healthOk := false, healthMsg := "down" }

/-- C1 counterexample: a run that enters rollback after a health-check
failure with a prior version recorded, whose persisted terminal status is
`SUCCESS`, not `FAILED`. -/
theorem C1_counterexample :
    Event.log "healthcheck" "❌ Healthcheck FAILED: down" ∈
      (run_real_pipeline 1 envRollbackOk).events ∧
    Event.step_start "rollback" ∈ (run_real_pipeline 1 envRollbackOk).events ∧
    (run_real_pipeline 1 envRollbackOk).runWrites =
      [RunStatus.running, RunStatus.success] ∧
    (run_real_pipeline 1 envRollbackOk).finalRun =
      some { id := some 1, pipeline_id := 1, status := RunStatus.success,
             created_at := 0, created_by := 1 } ∧
    (run_real_pipeline 1 envRollbackOk).finalPipelineStatus = some "success" := by
  refine ⟨by decide, by decide, by decide, by decide, by decide⟩

/-- Exit of the body when every step up to the healthcheck succeeds, the
healthcheck fails and a previous commit is recorded: the terminal status
is decided by the rollback redeploy and its healthcheck. -/
lemma runBody_exit_hcfail (e : Env) (p : Pipeline) (runId : Nat) (c : String)
    (hreach : reachesHealth e = true) (hhc : e.healthOk = false)
    (hprev : prevCommit e = some c) :
    exitRunStatus (runBody e p runId).2 =
      (if rbRedeployOk e && e.rbHealthOk then RunStatus.success
       else RunStatus.failed) ∧
    exitPipelineStatus (runBody e p runId).2 =
      (if rbRedeployOk e && e.rbHealthOk then "success" else "failed") := by
  simp only [reachesHealth, Bool.and_eq_true, Option.isNone_iff_eq_none] at hreach
  obtain ⟨⟨⟨⟨⟨h1, h2⟩, h3⟩, h4⟩, h5⟩, h6⟩ := hreach
  by_cases hdemo : e.demoExists
  · rw [if_pos hdemo] at h2
    simp only [Bool.and_eq_true, Option.isNone_iff_eq_none,
      Option.isSome_iff_exists] at h2
    obtain ⟨⟨⟨hm1, hm2⟩, ⟨tok, htok⟩⟩, hm4⟩ := h2
    have he : e.sonarExit = 0 := by simpa using hm4
    rcases hb : e.rbBuildErr with _ | mb <;>
      rcases hsp : e.rbShipErr with _ | ms <;>
        rcases hd2 : e.rbDeployErr with _ | md <;>
          cases hrbh : e.rbHealthOk <;>
            simp [runBody, bodySeq, checkoutStep, mavenStep, sonarStep,
              dockerBuildStep, cleanupStep, shipStep, deployStep, healthPhase,
              h1, h3, h4, h5, h6, hm1, hm2, hdemo, htok, he, hhc, hprev, hb,
              hsp, hd2, hrbh, exitRunStatus, exitPipelineStatus, rbRedeployOk]
  · rcases hb : e.rbBuildErr with _ | mb <;>
      rcases hsp : e.rbShipErr with _ | ms <;>
        rcases hd2 : e.rbDeployErr with _ | md <;>
          cases hrbh : e.rbHealthOk <;>
            simp [runBody, bodySeq, checkoutStep, mavenStep, sonarStep,
              dockerBuildStep, cleanupStep, shipStep, deployStep, healthPhase,
              h1, h3, h4, h5, h6, hdemo, hhc, hprev, hb, hsp, hd2, hrbh,
              exitRunStatus, exitPipelineStatus, rbRedeployOk]

/-- C1 amended: for every run entering rollback after a health-check
failure with a prior commit recorded, the persisted run status is `FAILED`
unless the rollback rebuild, transfer and redeploy all succeed AND the
rollback healthcheck passes, in which case run and pipeline are persisted
as `SUCCESS`; a rollback-checkout failure alone does not stop the redeploy
or force failure. -/
theorem C1_rollback_status (runId : Nat) (e : Env) (r : Run) (p : Pipeline)
    (c : String) (hr : e.run = some r) (hp : e.pipeline = some p)
    (hreach : reachesHealth e = true) (hhc : e.healthOk = false)
    (hprev : prevCommit e = some c) :
    (run_real_pipeline runId e).finalRun =
      some { r with status := if rbRedeployOk e && e.rbHealthOk
                              then RunStatus.success else RunStatus.failed } ∧
    (run_real_pipeline runId e).finalPipelineStatus =
      some (if rbRedeployOk e && e.rbHealthOk then "success" else "failed") := by
  have hx := runBody_exit_hcfail e p runId c hreach hhc hprev
  constructor
  · simp [run_real_pipeline, hr, hp, hx.1]
  · simp [run_real_pipeline, hr, hp, hx.2]

/-- Environment like `envRollbackOk` but whose rollback healthcheck also
fails. -/
def envRollbackBad : Env :=
  { envRollbackOk with
    rbHealthOk := false, rbHealthMsg := "still down" }

/-- Witness: amended statement applied where the rollback healthcheck
fails — the run is persisted `FAILED`. -/
theorem C1_rollback_status_witness :
    (run_real_pipeline 1 envRollbackBad).finalRun =
      some { id := some 1, pipeline_id := 1, status := RunStatus.failed,
             created_at := 0, created_by := 1 } ∧
    (run_real_pipeline 1 envRollbackBad).finalPipelineStatus = some "failed" := by
  have h := C1_rollback_status 1 envRollbackBad r0 p0 "abc123" rfl rfl
    (by decide) (by decide) (by decide)
  constructor
  · rw [h.1]; decide
  · rw [h.2]; decide

/-! ### C6 — identifying the failing step

The claim fails on the code: a run failed by the healthcheck closes the
healthcheck step with `step_success` (runner_real.py line 507) before
emitting `run_failed`, so no `step_start` is left unmatched; for
exception failures the identification does hold. -/

/-- Environment whose deploy healthcheck fails and no previous version is
recorded. -/
def envHcNoPrev : Env :=
  { envAllOk with healthOk := false, healthMsg := "down" }

/-- C6 counterexample: a failed run (healthcheck failure, no previous
version) in whose event stream every `step_start` has a matching
`step_success` — the failing step is not identifiable as claimed. -/
theorem C6_counterexample :
    (run_real_pipeline 1 envHcNoPrev).finalRun =
      some { id := some 1, pipeline_id := 1, status := RunStatus.failed,
             created_at := 0, created_by := 1 } ∧
    Event.run_failed "Healthcheck failed - no previous version to rollback to" ∈
      (run_real_pipeline 1 envHcNoPrev).events ∧
    lastOpenStep (run_real_pipeline 1 envHcNoPrev).events = none := by
  refine ⟨by decide, by decide, by decide⟩

/-- For a body that raises (with no previous commit recorded), the
open-step fold over the body's events lands exactly on the step that
raised. -/
lemma runBody_open_thrown (e : Env) (p : Pipeline) (runId : Nat) (m : String)
    (hprev : prevCommit e = none)
    (hthrown : (runBody e p runId).2 = BodyExit.thrown m) :
    (runBody e p runId).1.events.foldl openAcc none = failingStep e := by
  rcases h1 : e.cloneErr with _ | m1
  case some =>
    simp [runBody, bodySeq, checkoutStep, h1, failingStep, openAcc,
      List.foldl_append, foldl_openAcc_logs]
  case none =>
  by_cases hdemo : e.demoExists
  case pos =>
    rcases h2 : e.mvnCompileErr with _ | m2
    case some =>
      simp [runBody, bodySeq, checkoutStep, mavenStep, h1, h2, hdemo,
        failingStep, openAcc, List.foldl_append, foldl_openAcc_logs]
    case none =>
    rcases h3 : e.mvnTestErr with _ | m3
    case some =>
      simp [runBody, bodySeq, checkoutStep, mavenStep, h1, h2, h3, hdemo,
        failingStep, openAcc, List.foldl_append, foldl_openAcc_logs]
    case none =>
    rcases h4 : e.sonarToken with _ | tok
    case none =>
      simp [runBody, bodySeq, checkoutStep, mavenStep, sonarStep, h1, h2, h3,
        h4, hdemo, failingStep, openAcc, List.foldl_append, foldl_openAcc_logs]
    case some =>
    by_cases h5 : e.sonarExit = 0
    case neg =>
      simp [runBody, bodySeq, checkoutStep, mavenStep, sonarStep, h1, h2, h3,
        h4, h5, hdemo, failingStep, openAcc, List.foldl_append,
        foldl_openAcc_logs]
    case pos =>
    rcases h6 : e.dockerBuildErr with _ | m6
    case some =>
      simp [runBody, bodySeq, checkoutStep, mavenStep, sonarStep,
        dockerBuildStep, h1, h2, h3, h4, h5, h6, hdemo, failingStep, openAcc,
        List.foldl_append, foldl_openAcc_logs]
    case none =>
    rcases h7 : e.cleanupErr with _ | m7
    case some =>
      simp [runBody, bodySeq, checkoutStep, mavenStep, sonarStep,
        dockerBuildStep, cleanupStep, h1, h2, h3, h4, h5, h6, h7, hdemo,
        failingStep, openAcc, List.foldl_append, foldl_openAcc_logs]
    case none =>
    rcases h8 : e.shipErr with _ | m8
    case some =>
      simp [runBody, bodySeq, checkoutStep, mavenStep, sonarStep,
        dockerBuildStep, cleanupStep, shipStep, h1, h2, h3, h4, h5, h6, h7,
        h8, hdemo, failingStep, openAcc, List.foldl_append, foldl_openAcc_logs]
    case none =>
    rcases h9 : e.deployErr with _ | m9
    case some =>
      simp [runBody, bodySeq, checkoutStep, mavenStep, sonarStep,
        dockerBuildStep, cleanupStep, shipStep, deployStep, h1, h2, h3, h4,
        h5, h6, h7, h8, h9, hdemo, failingStep, openAcc, List.foldl_append,
        foldl_openAcc_logs]
    case none =>
      exfalso
      cases hhc : e.healthOk <;>
        simp [runBody, bodySeq, checkoutStep, mavenStep, sonarStep,
          dockerBuildStep, cleanupStep, shipStep, deployStep, healthPhase,
          h1, h2, h3, h4, h5, h6, h7, h8, h9, hdemo, hhc, hprev] at hthrown
  case neg =>
    rcases h6 : e.dockerBuildErr with _ | m6
    case some =>
      simp [runBody, bodySeq, checkoutStep, mavenStep, sonarStep,
        dockerBuildStep, h1, h6, hdemo, failingStep, openAcc,
        List.foldl_append, foldl_openAcc_logs]
    case none =>
    rcases h7 : e.cleanupErr with _ | m7
    case some =>
      simp [runBody, bodySeq, checkoutStep, mavenStep, sonarStep,
        dockerBuildStep, cleanupStep, h1, h6, h7, hdemo, failingStep, openAcc,
        List.foldl_append, foldl_openAcc_logs]
    case none =>
    rcases h8 : e.shipErr with _ | m8
    case some =>
      simp [runBody, bodySeq, checkoutStep, mavenStep, sonarStep,
        dockerBuildStep, cleanupStep, shipStep, h1, h6, h7, h8, hdemo,
        failingStep, openAcc, List.foldl_append, foldl_openAcc_logs]
    case none =>
    rcases h9 : e.deployErr with _ | m9
    case some =>
      simp [runBody, bodySeq, checkoutStep, mavenStep, sonarStep,
        dockerBuildStep, cleanupStep, shipStep, deployStep, h1, h6, h7, h8,
        h9, hdemo, failingStep, openAcc, List.foldl_append, foldl_openAcc_logs]
    case none =>
      exfalso
      cases hhc : e.healthOk <;>
        simp [runBody, bodySeq, checkoutStep, mavenStep, sonarStep,
          dockerBuildStep, cleanupStep, shipStep, deployStep, healthPhase,
          h1, h6, h7, h8, h9, hdemo, hhc, hprev] at hthrown

/-- C6 amended: for every run that fails because a pipeline step raised an
exception, when no previous commit is recorded, the failing step is
identifiable from the event stream as the last `step_start` without a
matching `step_success`, a `run_failed` event carrying the exception's
diagnostic message is published, and the run is persisted `FAILED`; runs
failed by a health-check failure instead close the healthcheck step with
`step_success` before `run_failed`, leaving no unmatched `step_start`. -/
theorem C6_failing_step (runId : Nat) (e : Env) (r : Run) (p : Pipeline)
    (m : String) (hr : e.run = some r) (hp : e.pipeline = some p)
    (hprev : prevCommit e = none)
    (hthrown : (runBody e p runId).2 = BodyExit.thrown m) :
    lastOpenStep (run_real_pipeline runId e).events = failingStep e ∧
    Event.run_failed m ∈ (run_real_pipeline runId e).events ∧
    (run_real_pipeline runId e).finalRun = some { r with status := RunStatus.failed } := by
  have hopen := runBody_open_thrown e p runId m hprev hthrown
  refine ⟨?_, ?_, ?_⟩
  · simp [run_real_pipeline, hr, hp, hprev, hthrown, lastOpenStep,
      List.foldl_append, openAcc, hopen]
  · simp [run_real_pipeline, hr, hp, hprev, hthrown]
  · simp [run_real_pipeline, hr, hp, hprev, hthrown, exitRunStatus]

/-- Environment whose Docker build raises. -/
def envBuildFail : Env :=
  { envAllOk with dockerBuildErr := some "boom" }

/-- Witness: amended statement applied to a run whose Docker build raised
`boom` — the open step is `docker_build` and `run_failed boom` is
published. -/
theorem C6_failing_step_witness :
    lastOpenStep (run_real_pipeline 1 envBuildFail).events = some "docker_build" ∧
    Event.run_failed "boom" ∈ (run_real_pipeline 1 envBuildFail).events ∧
    (run_real_pipeline 1 envBuildFail).finalRun =
      some { r0 with status := RunStatus.failed } := by
  have h := C6_failing_step 1 envBuildFail r0 p0 "boom" rfl rfl (by decide)
    (by decide)
  refine ⟨?_, h.2.1, h.2.2⟩
  · rw [h.1]; decide

end SecureCloud
